import Mathlib

/-!
Shallow embedding of `src/homework.py` (a long-running homework-status
polling bot) and proofs about its behaviour.

Modelling conventions:
* Python JSON values are the inductive `Json`; a decoded top-level payload
  is a `Json` value (`Json.obj` models a dict as an association list with
  unique keys, as produced by `json.loads`).
* Python exceptions are the inductive `PyError`; fallible Python code is
  modelled as `Except PyError _`.
* The module-level mutable global `time_sleep_error` (assigned only in the
  `else` branch of the loop in `main` and mutated by `timeout_and_logging`) is
  modelled as an `Option Nat` field of `PollState`: `none` means the global
  name is not yet bound, so reading it raises `NameError`.
* External effects (the HTTP fetch and the Telegram send) are modelled by a
  per-cycle environment `CycleEnv` describing what the outside world does;
  `time.sleep` calls are recorded in the cycle result instead of blocking.
* An `Except.error` escaping `run_cycle` / `run_cycles` models an uncaught
  Python exception terminating the process.
-/

namespace HomeworkBot

/-- Json values as decoded by the Python `json` module: `null`, booleans,
integers, strings, lists and dicts (association lists). -/
inductive Json where
  | null
  | bool (b : Bool)
  | num (n : Int)
  | str (s : String)
  | list (xs : List Json)
  | obj (fields : List (String × Json))
  deriving Repr

/-- Python exceptions that the embedded code can raise: the bot-defined
`PracticumException`, plus built-in `KeyError`, `TypeError`, `NameError`
and `json.JSONDecodeError`. -/
inductive PyError where
  | practicum (msg : String)
  | keyError (key : String)
  | typeError
  | nameError
  | jsonDecodeError
  deriving Repr, DecidableEq

/-- Python `repr` for decoded-JSON values (used by `str` on containers). -/
def pyRepr : Json → String
  | .null => "None"
  | .bool b => if b then "True" else "False"
  | .num n => toString n
  | .str s => "'" ++ s ++ "'"
  | .list xs => "[" ++ String.intercalate ", " (xs.attach.map (fun x => pyRepr x.1)) ++ "]"
  | .obj fs => "\x7b" ++
      String.intercalate ", "
        (fs.attach.map (fun f => "'" ++ f.1.1 ++ "': " ++ pyRepr f.1.2)) ++ "\x7d"
  decreasing_by
    all_goals simp_wf
    · have := List.sizeOf_lt_of_mem x.2
      omega
    · obtain ⟨⟨a, b⟩, hb⟩ := f
      have h := List.sizeOf_lt_of_mem hb
      simp only [Prod.mk.sizeOf_spec] at h
      simp only []
      omega

/-- Python `str` applied to a decoded-JSON value, as used by an f-string:
a string formats as itself, containers and scalars as their `repr`. -/
def pyStr (v : Json) : String :=
  match v with
  | .str s => s
  | v => pyRepr v

/-- Python subscription `v[key]` with a string key: dict lookup
(`KeyError` when the key is absent), `TypeError` on any non-dict. -/
def pySubscript (v : Json) (key : String) : Except PyError Json :=
  match v with
  | .obj fields =>
    match fields.lookup key with
    | some w => .ok w
    | none => .error (.keyError key)
  | _ => .error .typeError

/-- Membership of a string in a Python list (`key in xs`): `==` between a
string and a non-string element is `False`, so only string elements count. -/
def pyInList (key : String) : List Json → Bool
  | [] => false
  | .str s :: xs => s == key || pyInList key xs
  | _ :: xs => pyInList key xs

/-- Python `key in v` for a string `key`: key membership on a dict,
element membership on a list, substring test on a string, `TypeError`
otherwise (ints, bools and `None` are not containers). -/
def pyIn (key : String) (v : Json) : Except PyError Bool :=
  match v with
  | .obj fields => .ok (fields.lookup key).isSome
  | .list xs => .ok (pyInList key xs)
  | .str s => .ok (decide ((s.splitOn key).length > 1))
  | _ => .error .typeError

/-- The `HOMEWORK_STATUSES` module constant: the closed status-to-verdict
dict of `src/homework.py`. -/
def HOMEWORK_STATUSES : List (String × String) :=
  [("approved", "Работа проверена: ревьюеру всё понравилось. Ура!"),
   ("reviewing", "Работа взята на проверку ревьюером."),
   ("rejected", "Работа проверена: у ревьюера есть замечания.")]

/-- The `RETRY_TIME` module constant: seconds slept after a successful cycle. -/
def RETRY_TIME : Nat := 600

/-- The base value assigned to the backoff global after a successful cycle. -/
def BASE_BACKOFF : Nat := 30

/-- The threshold at which `timeout_and_logging` resets the doubled backoff. -/
def BACKOFF_LIMIT : Nat := 51200

/-- Embeds `check_tokens()`: `False` iff any of the three environment
secrets (`PRACTICUM_TOKEN`, `TELEGRAM_TOKEN`, `TELEGRAM_CHAT_ID`) is `None`. -/
def check_tokens (practicum_token telegram_token telegram_chat_id : Option String) : Bool :=
  if practicum_token = none ∨ telegram_token = none ∨ telegram_chat_id = none then
    false
  else
    true

/-- Embeds `parse_status(homework)`: reads the `homework_name` and
`status` entries of the record (each can raise `KeyError`), raises
`PracticumException` when the status is not a key of `HOMEWORK_STATUSES`
(the Python `in` on a dict raises `TypeError` for unhashable lists/dicts),
and otherwise returns the formatted status-change message. -/
def parse_status (homework : Json) : Except PyError String := do
  let nameV ← pySubscript homework "homework_name"
  let statusV ← pySubscript homework "status"
  match statusV with
  | .list _ => throw .typeError
  | .obj _ => throw .typeError
  | .str s =>
    match HOMEWORK_STATUSES.lookup s with
    | some verdict =>
      return "Изменился статус проверки работы \"" ++ pyStr nameV ++ "\". " ++ verdict
    | none => throw (.practicum "Обнаружен новый статус, отсутствующий в списке!")
  | _ => throw (.practicum "Обнаружен новый статус, отсутствующий в списке!")

/-- What the outside world does when `get_api_answer` performs its HTTP
request: `requests.get` raises, or an HTTP response arrives with a status
code and a body (`none` = the body is not valid JSON, so `.json()` raises). -/
inductive FetchOutcome where
  | requestException (msg : String)
  | valueError (msg : String)
  | typeErrorExc (msg : String)
  | response (status_code : Nat) (jsonBody : Option Json)
  deriving Repr

/-- Embeds `get_api_answer(current_timestamp)`: wraps `requests.get`
failures into `PracticumException`; on a non-200 status the debug line
calls `.json()` first (raising `JSONDecodeError` on a non-JSON body) and
then raises `PracticumException`; on a 200 status a non-JSON body raises
`PracticumException`, otherwise the decoded JSON is returned. -/
def get_api_answer (fetch : FetchOutcome) : Except PyError Json :=
  match fetch with
  | .requestException m =>
    .error (.practicum
      ("При обработке вашего запроса возникла неоднозначная исключительная ситуация: " ++ m))
  | .valueError m => .error (.practicum ("Ошибка в значении " ++ m))
  | .typeErrorExc m => .error (.practicum ("Не корректный тип данных " ++ m))
  | .response status_code jsonBody =>
    if status_code ≠ 200 then
      match jsonBody with
      | none => .error .jsonDecodeError
      | some _ =>
        .error (.practicum ("Ошибка " ++ toString status_code ++ " practicum.yandex.ru"))
    else
      match jsonBody with
      | none => .error (.practicum "Ответ от сервера должен быть в формате JSON")
      | some j => .ok j

/-- Embeds `check_response(response)`: raises via the `error` and
`code` branches, then requires the `homeworks` entry to exist, not be
`None`, and be a list; returns that list. -/
def check_response (response : Json) : Except PyError (List Json) := do
  let hasErr ← pyIn "error" response
  if hasErr then
    let errVal ← pySubscript response "error"
    let nested ← pyIn "error" errVal
    if nested then
      let inner ← pySubscript errVal "error"
      throw (.practicum (pyStr inner))
  let hasCode ← pyIn "code" response
  if hasCode then
    let msg ← pySubscript response "message"
    throw (.practicum (pyStr msg))
  let hw ← pySubscript response "homeworks"
  match hw with
  | .null => throw (.practicum "Задания не обнаружены")
  | .list xs => return xs
  | _ => throw (.practicum "response['homeworks'] не является списком")

/-- The mutable process state of the polling loop in `main`: the local
`current_timestamp` (kept as the raw JSON value that was assigned to it)
and the module-level global `time_sleep_error` (`none` = never assigned,
reading it raises `NameError`). -/
structure PollState where
  current_timestamp : Json
  time_sleep_error : Option Nat
  deriving Repr

/-- Embeds `timeout_and_logging(...)`: logs, reads the global
`time_sleep_error` (raising `NameError` when it was never assigned),
sleeps for that many seconds, doubles the global, and resets it to 30
once the doubled value reaches 51200. Returns the new state together with
the number of seconds slept. -/
def timeout_and_logging (st : PollState) : Except PyError (PollState × Nat) :=
  match st.time_sleep_error with
  | none => .error .nameError
  | some s =>
    let doubled := s * 2
    let next := if doubled ≥ BACKOFF_LIMIT then BASE_BACKOFF else doubled
    .ok ({ st with time_sleep_error := some next }, s)

/-- Embeds `send_message(bot, message)`: when Telegram accepts the message
it is delivered; when Telegram raises (`Unauthorized`/`BadRequest`/
`TelegramError`, modelled by `sendFails = true`) the handler calls
`timeout_and_logging`, so the message is dropped, a backoff sleep happens,
and a `NameError` from the unassigned global propagates. Returns the new
state, the delivered messages and the backoff sleeps performed. -/
def send_message (sendFails : Bool) (st : PollState) (message : String) :
    Except PyError (PollState × List String × List Nat) :=
  if sendFails then
    match timeout_and_logging st with
    | .ok (st', slept) => .ok (st', [], [slept])
    | .error e => .error e
  else
    .ok (st, [message], [])

/-- What the outside world does during one loop cycle: the outcome of the
HTTP fetch, and whether the Telegram send raises. -/
structure CycleEnv where
  fetch : FetchOutcome
  sendFails : Bool
  deriving Repr

/-- Result of running the `try` block of one loop iteration of `main`:
the state after the block, the messages delivered to Telegram, the backoff
sleeps performed inside the block, and the exception that escaped the
block (`none` = the block completed, so the `else` branch runs). -/
structure TryResult where
  st : PollState
  delivered : List String
  sleeps : List Nat
  err : Option PyError
  deriving Repr

/-- Embeds the `try` block of the loop in `main`: fetch, validate, send
the status of the first homework when the list is non-empty, then assign
`current_timestamp` from the `current_date` entry and sleep `RETRY_TIME`. -/
def try_block (env : CycleEnv) (st : PollState) : TryResult :=
  match get_api_answer env.fetch with
  | .error e => ⟨st, [], [], some e⟩
  | .ok response =>
    match check_response response with
    | .error e => ⟨st, [], [], some e⟩
    | .ok homeworks =>
      match homeworks with
      | [] =>
        match pySubscript response "current_date" with
        | .error e => ⟨st, [], [], some e⟩
        | .ok v => ⟨{ st with current_timestamp := v }, [], [], none⟩
      | hw :: _ =>
        match parse_status hw with
        | .error e => ⟨st, [], [], some e⟩
        | .ok message =>
          match send_message env.sendFails st message with
          | .error e => ⟨st, [], [], some e⟩
          | .ok (st1, delivered, sleeps) =>
            match pySubscript response "current_date" with
            | .error e => ⟨st1, delivered, sleeps, some e⟩
            | .ok v => ⟨{ st1 with current_timestamp := v }, delivered, sleeps, none⟩

/-- Observable outcome of one completed loop cycle (when no exception
escaped to the top level): the state afterwards, the messages delivered to
Telegram, the backoff sleeps, and whether the cycle reached the `else`
branch (a fully successful cycle). -/
structure CycleResult where
  state : PollState
  sent : List String
  backoffSleeps : List Nat
  success : Bool
  deriving Repr

/-- Embeds one iteration of the `while True` loop of `main`: run the `try`
block; on `PracticumException` or any other `Exception` call
`timeout_and_logging` (whose own `NameError` is uncaught and kills the
process, modelled by `Except.error`); when the block completes, the `else`
branch assigns `time_sleep_error = 30`. -/
def run_cycle (env : CycleEnv) (st : PollState) : Except PyError CycleResult :=
  match try_block env st with
  | ⟨st1, delivered, sleeps, none⟩ =>
    .ok { state := { st1 with time_sleep_error := some BASE_BACKOFF },
          sent := delivered, backoffSleeps := sleeps, success := true }
  | ⟨st1, delivered, sleeps, some _⟩ =>
    match timeout_and_logging st1 with
    | .ok (st2, slept) =>
      .ok { state := st2, sent := delivered,
            backoffSleeps := sleeps ++ [slept], success := false }
    | .error e => .error e

/-- Runs the polling loop for a finite prefix of cycles described by
`envs`, collecting every observable cycle result; an `Except.error` is an
uncaught exception terminating the whole process. -/
def run_cycles : List CycleEnv → PollState → Except PyError (List CycleResult × PollState)
  | [], st => .ok ([], st)
  | env :: envs, st =>
    match run_cycle env st with
    | .error e => .error e
    | .ok r =>
      match run_cycles envs r.state with
      | .error e => .error e
      | .ok (rs, st') => .ok (r :: rs, st')

/-- How `main` ends its startup phase. `exited code` means `main` returned
before entering the loop; since the `__main__` harness discards the
return value of `main`, the interpreter then terminates normally and `code` is the
process exit status, which is `0`. `entersLoop` means the `while True`
loop is entered. -/
inductive StartupResult where
  | exited (code : Nat)
  | entersLoop
  deriving Repr, DecidableEq

/-- Embeds the startup of `main()`: `if not check_tokens():
logging.critical(...); return 0` — on missing secrets it logs at critical
severity and returns without entering the loop, and the process exit
status is 0. -/
def main_startup (practicum_token telegram_token telegram_chat_id : Option String) :
    StartupResult :=
  if ¬ check_tokens practicum_token telegram_token telegram_chat_id then
    .exited 0
  else
    .entersLoop

/-! Concrete inputs used to exercise the model. -/

/-- A homework entry with the documented status `reviewing`. -/
def hwReviewing : Json := .obj [("homework_name", .str "task1"), ("status", .str "reviewing")]

/-- The exact message the bot produces for `hwReviewing`. -/
def reviewingMsg : String :=
  "Изменился статус проверки работы \"task1\". Работа взята на проверку ревьюером."

/-- A well-formed payload carrying `hwReviewing` and a cursor. -/
def respOk : Json := .obj [("homeworks", .list [hwReviewing]), ("current_date", .num 1000)]

/-- A cycle in which the fetch succeeds with `respOk` and Telegram accepts. -/
def envOk : CycleEnv := ⟨.response 200 (some respOk), false⟩

/-- A cycle in which the server answers HTTP 503 with a JSON body. -/
def env503 : CycleEnv := ⟨.response 503 (some (.obj [])), false⟩

/-- A homework entry whose status is outside the documented closed set. -/
def hwBogus : Json := .obj [("homework_name", .str "task1"), ("status", .str "bogus")]

/-- A well-formed payload carrying `hwBogus`. -/
def respBogus : Json := .obj [("homeworks", .list [hwBogus]), ("current_date", .num 1000)]

/-- A cycle delivering `respBogus` over HTTP 200. -/
def envBogus : CycleEnv := ⟨.response 200 (some respBogus), false⟩

/-- A valid empty payload whose `current_date` is in the past relative to
the state used alongside it. -/
def respLowDate : Json := .obj [("homeworks", .list []), ("current_date", .num 5)]

/-- A cycle delivering `respLowDate` over HTTP 200. -/
def envLowDate : CycleEnv := ⟨.response 200 (some respLowDate), false⟩

/-- A payload with a valid empty `homeworks` list but no `current_date`. -/
def respNoDate : Json := .obj [("homeworks", .list [])]

/-- A cycle delivering `respNoDate` over HTTP 200. -/
def envNoDate : CycleEnv := ⟨.response 200 (some respNoDate), false⟩

/-- Shorthand for one doubling step of the backoff global as performed by
`timeout_and_logging`: double, and wrap to the base once the limit is hit. -/
def backoffNext (s : Nat) : Nat :=
  if s * 2 ≥ BACKOFF_LIMIT then BASE_BACKOFF else s * 2

/-- The backoff values the global can actually hold: it is set to the base
30 after a successful cycle (and at the wrap) and otherwise only doubled,
and from 30 the eleventh doubling (to 61440) is the first to reach 51200,
so the reachable values are exactly 30 * 2 ^ k for k ≤ 10, at most 30720. -/
def ReachableBackoff (s : Nat) : Prop :=
  ∃ k, k ≤ 10 ∧ s = BASE_BACKOFF * 2 ^ k

/-! Theorems about the embedded program, one group per claim. -/

/-- Claim C1, counterexample: two consecutive fully successful cycles with
the same payload and the same status `reviewing` each deliver a
status-change notification — the code keeps no `last_notified_status` and
never suppresses a duplicate, so "no notification is sent on the second
cycle" is false. -/
theorem c1_counterexample :
    run_cycles [envOk, envOk] ⟨Json.num 0, none⟩ =
      .ok ([⟨⟨Json.num 1000, some 30⟩, [reviewingMsg], [], true⟩,
            ⟨⟨Json.num 1000, some 30⟩, [reviewingMsg], [], true⟩],
           ⟨Json.num 1000, some 30⟩)
    ∧ [reviewingMsg] ≠ ([] : List String) := ⟨rfl, by decide⟩

/-- Claim C2 (code bug): on a run whose very first cycle fails — here the
fetch returns HTTP 503 — the failure handler reads the never-assigned
global `time_sleep_error`, raising `NameError`, which is uncaught: the
process terminates instead of backing off and continuing. -/
theorem c2_first_cycle_failure_crashes :
    run_cycles [env503] ⟨Json.num 0, none⟩ = .error .nameError := rfl

/-- Claim C3, counterexample: one successful cycle (which sets the backoff
global to its base 30) followed by twelve failing cycles sleeps
30, 60, …, 15360, 30720 and then 30 again — after the 30720 sleep the
doubled value 61440 reaches the 51200 limit and wraps to the base 30, so
within a single uninterrupted failing streak the interval decreases and
resets to base without any intervening successful cycle. -/
theorem c3_counterexample :
    (run_cycles (envOk :: List.replicate 12 env503) ⟨Json.num 0, none⟩).map
        (fun p => p.1.map CycleResult.backoffSleeps)
      = .ok [[], [30], [60], [120], [240], [480], [960], [1920], [3840], [7680],
             [15360], [30720], [30]]
    ∧ (30 : Nat) < 30720 := ⟨rfl, by decide⟩

/-- Claim C4, counterexample: a fully successful cycle assigns the cursor
directly from the `current_date` of the response, which here (5) is smaller
than the cursor before the cycle (1000) — so "cursor afterwards ≥ cursor
before" is false. -/
theorem c4_counterexample :
    run_cycle envLowDate ⟨Json.num 1000, some 30⟩ =
      .ok ⟨⟨Json.num 5, some 30⟩, [], [], true⟩
    ∧ ¬ ((1000 : Int) ≤ 5) := ⟨rfl, by decide⟩

/-- Claim C5, counterexample: with the remote API credential missing,
`main` logs critical and returns `0` without entering the loop, and the
process exit status is 0 — not the non-zero exit the claim requires. -/
theorem c5_counterexample :
    main_startup none (some "token") (some "chat") = .exited 0
    ∧ main_startup none (some "token") (some "chat") ≠ .entersLoop := ⟨rfl, by decide⟩

/-- Claim C6, counterexample: an undocumented status `bogus` makes the
cycle fail and back off, but the delivered-message list is empty — the
failure notification is commented out in the handler, so "exactly one
failure notification is sent" is false. -/
theorem c6_counterexample :
    run_cycle envBogus ⟨Json.num 0, some 30⟩ =
      .ok ⟨⟨Json.num 0, some 60⟩, [], [30], false⟩
    ∧ ([] : List String).length ≠ 1 := ⟨rfl, by decide⟩

/-- Claim C7, counterexample: a response whose `homeworks` field is a
perfectly valid (empty) list still fails validation because it carries a
`code` key — so "fails if and only if the submissions field is absent,
null, or not a sequence" is false in the only-if direction. -/
theorem c7_counterexample :
    check_response (.obj [("code", .num 1), ("message", .str "x"), ("homeworks", .list [])]) =
      .error (.practicum "x") := rfl

/-- Claim C8, counterexample: an otherwise valid response without
`current_date` makes the cursor assignment from the missing
`current_date` entry raise `KeyError`, so the cycle IS treated as
an error (generic handler, backoff slept, no success) — though the
previous cursor is indeed retained. -/
theorem c8_counterexample :
    run_cycle envNoDate ⟨Json.num 1000, some 30⟩ =
      .ok ⟨⟨Json.num 1000, some 60⟩, [], [30], false⟩
    ∧ (⟨⟨Json.num 1000, some 60⟩, [], [30], false⟩ : CycleResult).success ≠ true :=
  ⟨rfl, by decide⟩

/-- Claim C9 (confirmed): for every record with a name and a status in the
closed set, `parse_status` is a pure total function returning exactly
`Изменился статус проверки работы "{name}". {verdict}` with the fixed
verdict associated to that status in `HOMEWORK_STATUSES`. -/
theorem c9_format_exact
    (nm verdict status : String)
    (h : HOMEWORK_STATUSES.lookup status = some verdict) :
    parse_status (.obj [("homework_name", .str nm), ("status", .str status)]) =
      .ok ("Изменился статус проверки работы \"" ++ nm ++ "\". " ++ verdict) := by
  have hred : parse_status (.obj [("homework_name", .str nm), ("status", .str status)]) =
      (match HOMEWORK_STATUSES.lookup status with
       | some v => .ok ("Изменился статус проверки работы \"" ++ nm ++ "\". " ++ v)
       | none => .error (.practicum "Обнаружен новый статус, отсутствующий в списке!")) := rfl
  rw [hred, h]

/-- Witness for C9 at the status `approved`. -/
theorem c9_witness :
    parse_status (.obj [("homework_name", .str "task1"), ("status", .str "approved")]) =
      .ok ("Изменился статус проверки работы \"task1\". " ++
           "Работа проверена: ревьюеру всё понравилось. Ура!") :=
  c9_format_exact "task1" "Работа проверена: ревьюеру всё понравилось. Ура!" "approved" rfl

/-- Claim C5 (amended): if any of the three required secrets is absent at
startup, `main` logs at critical severity and returns without entering the
polling loop, and the process exit status is zero (not non-zero: `main`
returns `0` and the `__main__` harness discards it, so the interpreter
terminates normally). -/
theorem c5_missing_secret_exits_zero
    (p t c : Option String) (h : check_tokens p t c = false) :
    main_startup p t c = .exited 0 := by
  unfold main_startup
  rw [h]
  simp

/-- Witness for C5 at all three secrets absent. -/
theorem c5_witness : main_startup none none none = .exited 0 :=
  c5_missing_secret_exits_zero none none none rfl

/-- Claim C1 (amended): the loop keeps no `last_notified_status`; on every
fully successful cycle whose validated `homeworks` list is non-empty, a
status-change notification is sent — regardless of the state before the
cycle, hence again on every subsequent cycle with an unchanged status. -/
theorem c1_notifies_every_nonempty_cycle
    (st : PollState) (env : CycleEnv) (resp hw : Json) (rest : List Json)
    (message : String) (v : Json)
    (hfetch : get_api_answer env.fetch = .ok resp)
    (hsend : env.sendFails = false)
    (hcheck : check_response resp = .ok (hw :: rest))
    (hparse : parse_status hw = .ok message)
    (hdate : pySubscript resp "current_date" = .ok v) :
    run_cycle env st =
      .ok ⟨⟨v, some BASE_BACKOFF⟩, [message], [], true⟩ := by
  unfold run_cycle try_block
  rw [hfetch]
  simp only [hcheck, hparse, hsend, hdate, send_message]
  rfl

/-- Witness for the amended C1 theorem: a fully successful cycle with the
`reviewing` payload delivers exactly the formatted message, whatever the
prior state was. -/
theorem c1_witness :
    run_cycle envOk ⟨Json.num 42, none⟩ =
      .ok ⟨⟨Json.num 1000, some BASE_BACKOFF⟩, [reviewingMsg], [], true⟩ :=
  c1_notifies_every_nonempty_cycle ⟨Json.num 42, none⟩ envOk respOk hwReviewing []
    reviewingMsg (Json.num 1000) rfl rfl rfl rfl rfl

/-- Claim C3 (amended): a failing cycle sleeps the current backoff
interval and then doubles it, wrapping to the base 30 once the doubled
value reaches 51200; starting from the base (the value after any fully
successful cycle) the reachable intervals are exactly 30 * 2 ^ k for
k ≤ 10, so every backoff sleep is bounded by 30720, but the interval is
NOT monotone across a streak: after sleeping 30720 it wraps back to 30
mid-streak with no intervening success; after any fully successful cycle
it is reset to the base 30. -/
theorem c3_backoff_wrap_cap_and_reset :
    (∀ (st : PollState) (s : Nat), st.time_sleep_error = some s →
      timeout_and_logging st =
        .ok ({ st with time_sleep_error := some (backoffNext s) }, s))
    ∧ (∀ (env : CycleEnv) (st : PollState) (r : CycleResult),
        run_cycle env st = .ok r → r.success = true →
        r.state.time_sleep_error = some BASE_BACKOFF)
    ∧ ReachableBackoff BASE_BACKOFF
    ∧ (∀ s, ReachableBackoff s → ReachableBackoff (backoffNext s) ∧ s ≤ 30720) := by
  refine ⟨?_, ?_, ⟨0, by decide, by decide⟩, ?_⟩
  · intro st s h
    unfold timeout_and_logging
    rw [h]
    rfl
  · intro env st r hr hsucc
    unfold run_cycle at hr
    split at hr
    · cases hr
      rfl
    · split at hr
      · cases hr
        simp at hsucc
      · cases hr
  · rintro s ⟨k, hk, rfl⟩
    interval_cases k
    · exact ⟨⟨1, by decide, by decide⟩, by decide⟩
    · exact ⟨⟨2, by decide, by decide⟩, by decide⟩
    · exact ⟨⟨3, by decide, by decide⟩, by decide⟩
    · exact ⟨⟨4, by decide, by decide⟩, by decide⟩
    · exact ⟨⟨5, by decide, by decide⟩, by decide⟩
    · exact ⟨⟨6, by decide, by decide⟩, by decide⟩
    · exact ⟨⟨7, by decide, by decide⟩, by decide⟩
    · exact ⟨⟨8, by decide, by decide⟩, by decide⟩
    · exact ⟨⟨9, by decide, by decide⟩, by decide⟩
    · exact ⟨⟨10, by decide, by decide⟩, by decide⟩
    · exact ⟨⟨0, by decide, by decide⟩, by decide⟩

/-- Witness for the amended C3 theorem: the doubling step at the maximal
reachable interval 30720 wraps to the base 30, a successful cycle resets
the interval to 30, and 30720 is itself a reachable interval within the
bound. -/
theorem c3_witness :
    timeout_and_logging ⟨Json.num 0, some 30720⟩ = .ok (⟨Json.num 0, some 30⟩, 30720)
    ∧ (⟨⟨Json.num 1000, some 30⟩, [reviewingMsg], [], true⟩ : CycleResult).state.time_sleep_error
        = some BASE_BACKOFF
    ∧ (ReachableBackoff (backoffNext 30720) ∧ 30720 ≤ 30720) :=
  ⟨c3_backoff_wrap_cap_and_reset.1 ⟨Json.num 0, some 30720⟩ 30720 rfl,
   c3_backoff_wrap_cap_and_reset.2.1 envOk ⟨Json.num 42, none⟩
     ⟨⟨Json.num 1000, some 30⟩, [reviewingMsg], [], true⟩ rfl rfl,
   c3_backoff_wrap_cap_and_reset.2.2.2 30720 ⟨10, by decide, by decide⟩⟩

/-- Reduction of a bind on a successful `Except` value. -/
theorem exceptBind_ok {ε α β : Type} (a : α) (k : α → Except ε β) :
    (do let x ← (Except.ok a : Except ε α); k x) = k a := rfl

/-- Neither branch of `timeout_and_logging` touches `current_timestamp`. -/
theorem timeout_preserves_cursor {st st2 : PollState} {slept : Nat}
    (h : timeout_and_logging st = .ok (st2, slept)) :
    st2.current_timestamp = st.current_timestamp := by
  unfold timeout_and_logging at h
  cases hts : st.time_sleep_error with
  | none => rw [hts] at h; cases h
  | some s =>
    rw [hts] at h
    simp only [Except.ok.injEq, Prod.mk.injEq] at h
    rw [← h.1]

/-- A completed `send_message` call never changes `current_timestamp`. -/
theorem send_preserves_cursor {f : Bool} {st st1 : PollState} {m : String}
    {d : List String} {sl : List Nat}
    (h : send_message f st m = .ok (st1, d, sl)) :
    st1.current_timestamp = st.current_timestamp := by
  unfold send_message at h
  split at h
  · cases ht : timeout_and_logging st with
    | error e => rw [ht] at h; cases h
    | ok p =>
      obtain ⟨st2, slept⟩ := p
      rw [ht] at h
      simp only [Except.ok.injEq, Prod.mk.injEq] at h
      rw [← h.1]
      exact timeout_preserves_cursor ht
  · simp only [Except.ok.injEq, Prod.mk.injEq] at h
    rw [← h.1]

/-- When the backoff global has never been assigned, the `try` block cannot
assign it either: only the failure handler inside `send_message` could, and with the
global unassigned that handler dies with `NameError` instead. -/
theorem try_block_preserves_unset_backoff (env : CycleEnv) (t0 : Json) :
    (try_block env ⟨t0, none⟩).st.time_sleep_error = none := by
  unfold try_block
  repeat' split
  all_goals simp_all [send_message, timeout_and_logging]
  all_goals cases hsf : env.sendFails <;> simp_all
  all_goals casesm* _ ∧ _
  all_goals subst_vars
  all_goals rfl

/-- Claim C10 (confirmed): `time_sleep_error` is a global assigned only
after a fully successful cycle; on any run whose very first cycle raises a
handled error, the read of the unassigned global by the failure handler raises
`NameError`, which is uncaught, so the process terminates (whatever
cycles would have followed). -/
theorem c10_first_cycle_error_is_fatal
    (t0 : Json) (env : CycleEnv) (envs : List CycleEnv)
    (hfail : (try_block env ⟨t0, none⟩).err ≠ none) :
    run_cycles (env :: envs) ⟨t0, none⟩ = .error .nameError := by
  have hpres := try_block_preserves_unset_backoff env t0
  have hcycle : run_cycle env ⟨t0, none⟩ = .error .nameError := by
    unfold run_cycle
    rcases htb : try_block env ⟨t0, none⟩ with ⟨st1, d, sl, err⟩
    rw [htb] at hfail hpres
    simp only [] at hfail hpres
    cases err with
    | none => simp at hfail
    | some e =>
      simp only []
      unfold timeout_and_logging
      rw [hpres]
  unfold run_cycles
  rw [hcycle]

/-- Witness for C10: a first cycle whose fetch raises a transport error
kills the whole run even though a healthy cycle was queued right after. -/
theorem c10_witness :
    run_cycles [⟨.requestException "boom", false⟩, envOk] ⟨Json.num 0, none⟩ =
      .error .nameError :=
  c10_first_cycle_error_is_fatal (Json.num 0) ⟨.requestException "boom", false⟩ [envOk]
    (by decide)

/-- Cursor behaviour of the `try` block: when the block fails the cursor
is untouched; when it completes, the cursor was assigned from the
`current_date` of the successfully fetched (and validated) response. -/
theorem try_block_cursor (env : CycleEnv) (st : PollState) :
    ((try_block env st).err ≠ none →
       (try_block env st).st.current_timestamp = st.current_timestamp)
    ∧ ((try_block env st).err = none →
       ∃ resp, get_api_answer env.fetch = .ok resp ∧
         pySubscript resp "current_date" = .ok (try_block env st).st.current_timestamp) := by
  unfold try_block
  cases hf : get_api_answer env.fetch with
  | error e => exact ⟨fun _ => rfl, fun h => by simp at h⟩
  | ok resp =>
    simp only []
    cases hc : check_response resp with
    | error e => exact ⟨fun _ => rfl, fun h => by simp at h⟩
    | ok homeworks =>
      simp only []
      cases homeworks with
      | nil =>
        simp only []
        cases hd : pySubscript resp "current_date" with
        | error e => exact ⟨fun _ => rfl, fun h => by simp at h⟩
        | ok v => exact ⟨fun h => by simp at h, fun _ => ⟨resp, rfl, hd⟩⟩
      | cons hw tail =>
        simp only []
        cases hp : parse_status hw with
        | error e => exact ⟨fun _ => rfl, fun h => by simp at h⟩
        | ok message =>
          simp only []
          cases hs : send_message env.sendFails st message with
          | error e => exact ⟨fun _ => rfl, fun h => by simp at h⟩
          | ok p =>
            obtain ⟨st1, delivered, sleeps⟩ := p
            simp only []
            have hc1 := send_preserves_cursor hs
            cases hd : pySubscript resp "current_date" with
            | error e => exact ⟨fun _ => hc1, fun h => by simp at h⟩
            | ok v => exact ⟨fun h => by simp at h, fun _ => ⟨resp, rfl, hd⟩⟩

/-- Claim C4 (amended): the cursor is assigned only from a successfully
fetched and validated response — after a failed cycle it is unchanged, and
after a fully successful cycle it equals the `current_date` value of the
response, which the code adopts as-is (it need not be ≥ the cursor before
the cycle). -/
theorem c4_cursor_assignment
    (env : CycleEnv) (st : PollState) (r : CycleResult)
    (hr : run_cycle env st = .ok r) :
    (r.success = false → r.state.current_timestamp = st.current_timestamp)
    ∧ (r.success = true →
        ∃ resp, get_api_answer env.fetch = .ok resp ∧
          pySubscript resp "current_date" = .ok r.state.current_timestamp) := by
  have hcur := try_block_cursor env st
  unfold run_cycle at hr
  rcases htb : try_block env st with ⟨st1, d, sl, err⟩
  rw [htb] at hr hcur
  simp only [] at hr hcur
  cases err with
  | none =>
    simp only [] at hr
    injection hr with hr
    subst hr
    refine ⟨fun hfalse => by simp at hfalse, fun _ => ?_⟩
    exact hcur.2 rfl
  | some e =>
    simp only [] at hr
    cases ht : timeout_and_logging st1 with
    | error e' => rw [ht] at hr; cases hr
    | ok p =>
      obtain ⟨st2, slept⟩ := p
      rw [ht] at hr
      injection hr with hr
      subst hr
      refine ⟨fun _ => ?_, fun htrue => by simp at htrue⟩
      have h1 := timeout_preserves_cursor ht
      have h2 := hcur.1 (by simp)
      simpa [h1] using h2

/-- Witness for the amended C4 theorem: a failing cycle (HTTP 503) leaves
the cursor untouched. -/
theorem c4_witness :
    (⟨⟨Json.num 7, some 60⟩, [], [30], false⟩ : CycleResult).state.current_timestamp
      = (⟨Json.num 7, some 30⟩ : PollState).current_timestamp :=
  (c4_cursor_assignment env503 ⟨Json.num 7, some 30⟩
      ⟨⟨Json.num 7, some 60⟩, [], [30], false⟩ rfl).1 rfl

/-- Claim C6 (amended): for every selected record whose status value is
outside the closed set, extraction fails with the undocumented-status
`PracticumException`, no status-change notification is attempted, NO
failure notification is sent either (the `send_message` call in the
handler is commented out, the failure is only logged), and backoff is
applied. -/
theorem c6_undocumented_status_no_notification
    (env : CycleEnv) (st : PollState) (s : Nat) (resp hw : Json) (rest : List Json)
    (nameV : Json) (badStatus : String)
    (hts : st.time_sleep_error = some s)
    (hfetch : get_api_answer env.fetch = .ok resp)
    (hcheck : check_response resp = .ok (hw :: rest))
    (hname : pySubscript hw "homework_name" = .ok nameV)
    (hstatus : pySubscript hw "status" = .ok (.str badStatus))
    (hbad : HOMEWORK_STATUSES.lookup badStatus = none) :
    run_cycle env st =
      .ok ⟨{ st with time_sleep_error := some (backoffNext s) }, [], [s], false⟩ := by
  have hparse : parse_status hw =
      .error (.practicum "Обнаружен новый статус, отсутствующий в списке!") := by
    unfold parse_status
    rw [hname]
    simp only [exceptBind_ok]
    rw [hstatus]
    simp only [exceptBind_ok]
    rw [hbad]
    rfl
  unfold run_cycle try_block
  rw [hfetch]
  simp only [hcheck, hparse]
  unfold timeout_and_logging
  rw [hts]
  rfl

/-- Witness for the amended C6 theorem at the `bogus` status payload. -/
theorem c6_witness :
    run_cycle envBogus ⟨Json.num 7, some 40⟩ =
      .ok ⟨⟨Json.num 7, some 80⟩, [], [40], false⟩ :=
  c6_undocumented_status_no_notification envBogus ⟨Json.num 7, some 40⟩ 40 respBogus
    hwBogus [] (.str "task1") "bogus" rfl rfl rfl rfl rfl rfl

/-- Claim C7 (amended): restricted to dict responses carrying neither an
`error` key nor a `code` key, validation fails iff the `homeworks` field
is absent (then with `KeyError`, not the bot-defined exception), `None`, or
not a list, and an empty list is valid; responses carrying a `code` key
(or an `error` key whose value contains `error`) fail regardless of a
valid `homeworks` field. -/
theorem c7_validator_characterization
    (fields : List (String × Json))
    (herr : fields.lookup "error" = none)
    (hcode : fields.lookup "code" = none) :
    check_response (.obj fields) =
      (match fields.lookup "homeworks" with
       | none => .error (.keyError "homeworks")
       | some .null => .error (.practicum "Задания не обнаружены")
       | some (.list xs) => .ok xs
       | some _ => .error (.practicum "response['homeworks'] не является списком")) := by
  cases hh : fields.lookup "homeworks" with
  | none =>
    simp [check_response, pyIn, pySubscript, herr, hcode, hh, exceptBind_ok]
    rfl
  | some w =>
    cases w <;> simp [check_response, pyIn, pySubscript, herr, hcode, hh, exceptBind_ok] <;> rfl

/-- Witness for the amended C7 theorem: an empty `homeworks` list with no
`error`/`code` keys validates successfully to the empty list. -/
theorem c7_witness :
    check_response (.obj [("homeworks", .list [])]) = .ok [] :=
  c7_validator_characterization [("homeworks", .list [])] rfl rfl

/-- Claim C8 (amended): when `current_date` is absent from an otherwise
valid response, the cycle IS treated as an error — the assignment raises
`KeyError`, routed to the generic failure handler, so the cycle ends
unsuccessfully with a backoff sleep — while the previous cursor value is
retained unchanged. -/
theorem c8_missing_cursor_cycle_fails
    (env : CycleEnv) (st : PollState) (s : Nat) (resp : Json)
    (hts : st.time_sleep_error = some s)
    (hfetch : get_api_answer env.fetch = .ok resp)
    (hdate : pySubscript resp "current_date" = .error (.keyError "current_date"))
    (hbranch : check_response resp = .ok [] ∨
      (env.sendFails = false ∧
        ∃ hw rest message, check_response resp = .ok (hw :: rest) ∧
          parse_status hw = .ok message)) :
    ∃ r, run_cycle env st = .ok r ∧
      r.state.current_timestamp = st.current_timestamp ∧
      r.success = false ∧ r.backoffSleeps = [s] := by
  cases hbranch with
  | inl hempty =>
    refine ⟨⟨{ st with time_sleep_error := some (backoffNext s) }, [], [s], false⟩,
      ?_, rfl, rfl, rfl⟩
    unfold run_cycle try_block
    rw [hfetch]
    simp only [hempty, hdate]
    unfold timeout_and_logging
    rw [hts]
    rfl
  | inr h =>
    obtain ⟨hsend, hw, rest, message, hcheck, hparse⟩ := h
    refine ⟨⟨{ st with time_sleep_error := some (backoffNext s) }, [message], [s], false⟩,
      ?_, rfl, rfl, rfl⟩
    have hsendok : send_message env.sendFails st message = .ok (st, [message], []) := by
      rw [hsend]
      rfl
    unfold run_cycle try_block
    rw [hfetch]
    simp only [hcheck, hparse, hsendok, hdate]
    unfold timeout_and_logging
    rw [hts]
    rfl

/-- Witness for the amended C8 theorem at a valid empty payload without
`current_date`. -/
theorem c8_witness :
    ∃ r, run_cycle envNoDate ⟨Json.num 9, some 30⟩ = .ok r ∧
      r.state.current_timestamp = (⟨Json.num 9, some 30⟩ : PollState).current_timestamp ∧
      r.success = false ∧ r.backoffSleeps = [30] :=
  c8_missing_cursor_cycle_fails envNoDate ⟨Json.num 9, some 30⟩ 30 respNoDate rfl rfl rfl
    (Or.inl rfl)

end HomeworkBot
